import Mathlib

/-!
Verification of the convergence-agent base module of flocker
(flocker/node/_deploy.py): the LocalState model (NodeLocalState),
the deployer contract, and the in-use dataset filter (NotInUseDatasets).

The embedding follows the Python source.  Python unicode strings are
Lean String values, UUID objects are the 128-bit integers they denote
(Nat), mappings are association lists, and the ValueError raised by
uuid.UUID on a malformed string is Option/none propagated through
the filter call.
-/

set_option autoImplicit false

/-! ### Model of Python uuid.UUID string parsing

Python constructs a UUID from a hex string by first removing every
occurrence of the substrings "urn:" and "uuid:", then stripping curly
braces from both ends, then removing every hyphen; the remainder must be
exactly 32 case-insensitive hex digits, whose value is the UUID.
A failure raises ValueError, modelled as none. -/

/-- Remove the leftmost occurrences of a non-empty pattern from a list,
fuel-indexed by the length of the input so the recursion is structural. -/
def removeAllAux (pat : List Char) : Nat → List Char → List Char
  | _, [] => []
  | 0, s => s
  | fuel + 1, c :: cs =>
    if pat.isPrefixOf (c :: cs) && !pat.isEmpty then
      removeAllAux pat fuel (cs.drop (pat.length - 1))
    else
      c :: removeAllAux pat fuel cs

/-- Remove every occurrence of a pattern from a list (Python str.replace
with an empty replacement). -/
def removeAll (pat s : List Char) : List Char :=
  removeAllAux pat s.length s

/-- Is the character one of the two curly-brace characters? -/
def isCurly (c : Char) : Bool :=
  c == '\x7b' || c == '\x7d'

/-- Strip curly-brace characters from both ends (Python str.strip applied
with both brace characters). -/
def stripCurly (s : List Char) : List Char :=
  ((s.dropWhile isCurly).reverse.dropWhile isCurly).reverse

/-- Value of one case-insensitive hexadecimal digit. -/
def hexVal (c : Char) : Option Nat :=
  let n := c.toNat
  if 48 ≤ n ∧ n ≤ 57 then some (n - 48)
  else if 97 ≤ n ∧ n ≤ 102 then some (n - 87)
  else if 65 ≤ n ∧ n ≤ 70 then some (n - 55)
  else none

/-- Value of a string of hexadecimal digits (Python int applied with base
16, restricted to plain digit strings). -/
def hexToNat (cs : List Char) : Option Nat :=
  cs.foldl
    (fun acc c =>
      match acc, hexVal c with
      | some a, some v => some (a * 16 + v)
      | _, _ => none)
    (some 0)

/-- Model of the Python uuid.UUID hex-string constructor used at
_deploy.py line 155: returns the 128-bit value of the UUID, or none for
the ValueError raised on a malformed string. -/
def pyUUID (s : String) : Option Nat :=
  let h0 := removeAll ("uuid:".toList) (removeAll ("urn:".toList) s.toList)
  let h1 := (stripCurly h0).filter (fun c => !(c == '-'))
  if h1.length = 32 then hexToNat h1 else none

/-! ### Data model -/

/-- Minimal model of flocker.control._model.NodeState (external to the
source fragment): a structured record of node identity; only its value
identity matters to the claims. -/
structure NodeState where
  uuid : Nat
  hostname : String
deriving DecidableEq

/-- NodeLocalState (lines 35-49): an ILocalState comprised solely of a
node_state which is shared with the control service. -/
structure NodeLocalState where
  node_state : NodeState
deriving DecidableEq

/-- shared_state_changes (lines 45-49): the node_state is shared in this
implementation of ILocalState; the Python body returns the one-element
tuple holding self.node_state. -/
def NodeLocalState.shared_state_changes (self : NodeLocalState) : List NodeState :=
  [self.node_state]

/-- Explicit-state translation of the shared_state_changes method call:
the body only reads self.node_state and contains no assignment (the class
is an immutable pyrsistent PClass), so the post-state of the receiver is
the pre-state. -/
def NodeLocalState.sharedStateChangesRun (self : NodeLocalState) :
    List NodeState × NodeLocalState :=
  (self.shared_state_changes, self)

/-- A manifestation carries the dataset_id of its dataset, a unicode
string in the flocker model. -/
structure Manifestation where
  dataset_id : String
deriving DecidableEq

/-- An application volume references a manifestation. -/
structure AttachedVolume where
  manifestation : Manifestation
deriving DecidableEq

/-- An application optionally has a volume (app.volume is None when the
application uses no dataset). -/
structure Application where
  volume : Option AttachedVolume
deriving DecidableEq

/-- A lease record; node_id is the UUID of the owning node. -/
structure Lease where
  node_id : Nat
deriving DecidableEq

/-- A candidate object carrying the conventional dataset_id attribute
read by the filter's default extractor. -/
structure Dataset where
  dataset_id : String
deriving DecidableEq

/-- The default get_dataset_id extractor of NotInUseDatasets.call
(line 141): the unicode rendering of the dataset_id attribute. -/
def defaultGetDatasetId (d : Dataset) : String :=
  d.dataset_id

/-! ### NotInUseDatasets (lines 117-164) -/

/-- The state of a NotInUseDatasets filter: the node id, the set of
dataset-id strings in use by local applications, and the lease table
(a mapping from dataset UUID to lease). -/
structure NotInUseDatasets where
  node_id : Nat
  in_use_datasets : List String
  leases : List (Nat × Lease)
deriving DecidableEq

/-- The constructor (lines 128-138): stores the node uuid and the lease
table, and computes the in-use set once, as the dataset_id of every local
application whose volume is not None. -/
def NotInUseDatasets.init (node_uuid : Nat) (local_applications : List Application)
    (leases : List (Nat × Lease)) : NotInUseDatasets :=
  { node_id := node_uuid,
    in_use_datasets := local_applications.filterMap
      (fun app => app.volume.map (fun v => v.manifestation.dataset_id)),
    leases := leases }

/-- The call operation (lines 140-164): for each object, extract the
unicode dataset id, parse it as a UUID (a malformed id raises ValueError,
aborting the whole call: none), skip the object if its raw id string is
in the in-use set, skip it if its parsed UUID has a lease owned by this
node, and otherwise append it to the result. -/
def NotInUseDatasets.call {α : Type} (self : NotInUseDatasets)
    (get_dataset_id : α → String) : List α → Option (List α)
  | [] => some []
  | obj :: rest =>
    match pyUUID (get_dataset_id obj) with
    | none => none
    | some dataset_id =>
      if get_dataset_id obj ∈ self.in_use_datasets then
        self.call get_dataset_id rest
      else
        match self.leases.lookup dataset_id with
        | some lease =>
          if lease.node_id = self.node_id then
            self.call get_dataset_id rest
          else
            (self.call get_dataset_id rest).map (fun r => obj :: r)
        | none => (self.call get_dataset_id rest).map (fun r => obj :: r)

/-- Explicit-state translation of the call operation: the body reads
self.in_use_datasets, self.leases and self.node_id and iterates the
input collection, with no assignment to self and no mutation of the
input, so both come out of the call unchanged. -/
def NotInUseDatasets.callRun {α : Type} (self : NotInUseDatasets)
    (get_dataset_id : α → String) (objects : List α) :
    Option (List α) × NotInUseDatasets × List α :=
  (self.call get_dataset_id objects, self, objects)

/-- Spec-side exclusion predicate, following the spec wording, for the
refinement claims: a candidate is excluded iff its extracted identifier
appears in the locally-used set, or its identifier has a lease whose
owning node identifier equals this filter's node identifier. -/
def NotInUseDatasets.specExcludes {α : Type} (self : NotInUseDatasets)
    (get_dataset_id : α → String) (obj : α) : Bool :=
  decide (get_dataset_id obj ∈ self.in_use_datasets) ||
    (match pyUUID (get_dataset_id obj) with
     | some u =>
       match self.leases.lookup u with
       | some lease => decide (lease.node_id = self.node_id)
       | none => false
     | none => false)

/-! ### Convergence loop driver model

The loop driver itself (flocker/node/_loop.py) is repository code that is
not part of the source fragment; the sleep behaviour after a NoOp result
is modelled from the spec. -/

/-- A calculate_changes result: the NoOp sentinel or some state change. -/
inductive StateChange where
  | noOp : StateChange
  | change : Nat → StateChange
deriving DecidableEq

/-- Modelled from the spec: the convergence loop driver's sleep after a
cycle whose calculate_changes returned the NoOp sentinel (the loop
implementation, flocker/node/_loop.py, is missing from the source
fragment).  Time advances in discrete ticks; the list records, for each
upcoming tick, whether a fresh configuration/cluster-state push arrives
from the control plane during that tick.  The driver sleeps until the
poll interval elapses or a push arrives, whichever is first; there is no
other wake source (no local timers).  Returns the number of ticks slept
before the next discover_state call. -/
def noOpSleep : Nat → List Bool → Nat
  | 0, _ => 0
  | r + 1, [] => r + 1
  | r + 1, p :: ps => if p then 0 else noOpSleep r ps + 1

/-- Modelled from the spec: the delay the loop driver inserts before the
next discover_state call, as a function of the calculate_changes result:
a NoOp result sleeps per noOpSleep, any other result proceeds without
delay. -/
def postCycleDelay (pollInterval : Nat) (result : StateChange)
    (pushes : List Bool) : Nat :=
  match result with
  | StateChange.noOp => noOpSleep pollInterval pushes
  | StateChange.change _ => 0

/-! ### Concrete instances used by the witnesses and counterexamples -/

/-- Node identifier of node A in the spec's concrete filter scenario. -/
def nodeA : Nat := 10

/-- Node identifier of node B in the spec's concrete filter scenario. -/
def nodeB : Nat := 11

/-- The filter of the spec's concrete scenario: node A has one local
application referencing dataset d1, the lease table maps d2 to a lease
owned by node A and d3 to a lease owned by node B. -/
def scenarioFilter : NotInUseDatasets :=
  NotInUseDatasets.init nodeA
    [{ volume := some { manifestation :=
        { dataset_id := "11111111-1111-1111-1111-111111111111" } } }]
    [(0x22222222222222222222222222222222, { node_id := nodeA }),
     (0x33333333333333333333333333333333, { node_id := nodeB })]

/-- The candidate list of the spec's concrete scenario: d1, d2, d3, d4. -/
def scenarioCandidates : List Dataset :=
  [⟨"11111111-1111-1111-1111-111111111111"⟩,
   ⟨"22222222-2222-2222-2222-222222222222"⟩,
   ⟨"33333333-3333-3333-3333-333333333333"⟩,
   ⟨"44444444-4444-4444-4444-444444444444"⟩]

/-- A dataset identifier spelled in lowercase hex. -/
def lowerCaseId : String := "aaaaaaaa-aaaa-aaaa-aaaa-aaaaaaaaaaaa"

/-- The same canonical dataset identifier spelled in uppercase hex. -/
def upperCaseId : String := "AAAAAAAA-AAAA-AAAA-AAAA-AAAAAAAAAAAA"

/-- A filter whose locally-used set holds the lowercase spelling of the
dataset identifier and whose lease table is empty. -/
def caseFilter : NotInUseDatasets :=
  NotInUseDatasets.init 10
    [{ volume := some { manifestation := { dataset_id := lowerCaseId } } }]
    []

/-- A filter with an empty locally-used set and one lease, on the
canonical UUID of lowerCaseId, owned by this filter's node. -/
def leaseFilter : NotInUseDatasets :=
  NotInUseDatasets.init 10 [] [(0xaaaaaaaaaaaaaaaaaaaaaaaaaaaaaaaa, { node_id := 10 })]

/-- A filter whose locally-used set holds an unparsable identifier
string. -/
def inUseBadFilter : NotInUseDatasets :=
  NotInUseDatasets.init 10
    [{ volume := some { manifestation := { dataset_id := "bad-id" } } }]
    []

/-! ### Helper lemmas about the filter call -/

/-- One step of the call loop, for an object whose identifier parses:
the object is dropped or kept according to the exclusion predicate. -/
theorem NotInUseDatasets.call_cons_eq {α : Type} (self : NotInUseDatasets)
    (gid : α → String) (obj : α) (rest : List α) (did : Nat)
    (hdid : pyUUID (gid obj) = some did) :
    self.call gid (obj :: rest) =
      if self.specExcludes gid obj then self.call gid rest
      else (self.call gid rest).map (fun r => obj :: r) := by
  simp only [NotInUseDatasets.call, NotInUseDatasets.specExcludes, hdid]
  by_cases hm : gid obj ∈ self.in_use_datasets
  · simp [hm]
  · cases hl : List.lookup did self.leases with
    | none => simp [hm, hl]
    | some lease =>
      by_cases hnode : lease.node_id = self.node_id
      · simp [hm, hl, hnode]
      · simp [hm, hl, hnode]

/-- When every candidate's identifier parses, the call returns the input
filtered by the exclusion predicate. -/
theorem NotInUseDatasets.call_eq_filter {α : Type} (self : NotInUseDatasets)
    (gid : α → String) (objs : List α)
    (h : ∀ o ∈ objs, (pyUUID (gid o)).isSome) :
    self.call gid objs = some (objs.filter (fun o => ! self.specExcludes gid o)) := by
  induction objs with
  | nil => rfl
  | cons obj rest ih =>
    have hhead : (pyUUID (gid obj)).isSome := h obj (List.mem_cons_self obj rest)
    have htail : ∀ o ∈ rest, (pyUUID (gid o)).isSome :=
      fun o ho => h o (List.mem_cons_of_mem _ ho)
    obtain ⟨did, hdid⟩ := Option.isSome_iff_exists.mp hhead
    rw [self.call_cons_eq gid obj rest did hdid, List.filter_cons, ih htail]
    by_cases he : self.specExcludes gid obj
    · simp [he]
    · simp [he]

/-- A successful call means every candidate's identifier parsed: the loop
parses each identifier before any exclusion check. -/
theorem NotInUseDatasets.call_some_isSome {α : Type} (self : NotInUseDatasets)
    (gid : α → String) (objs : List α) (r : List α)
    (h : self.call gid objs = some r) :
    ∀ o ∈ objs, (pyUUID (gid o)).isSome := by
  induction objs generalizing r with
  | nil => simp
  | cons obj rest ih =>
    intro o ho
    simp only [NotInUseDatasets.call] at h
    rcases List.mem_cons.mp ho with rfl | ho2
    · cases hp : pyUUID (gid o) with
      | none => rw [hp] at h; cases h
      | some did => simp [hp]
    · cases hp : pyUUID (gid obj) with
      | none => rw [hp] at h; cases h
      | some did =>
        rw [hp] at h
        simp only [] at h
        split at h
        · exact ih r h o ho2
        · split at h
          · split at h
            · exact ih r h o ho2
            · cases hc : self.call gid rest with
              | none => rw [hc] at h; cases h
              | some r0 => exact ih r0 hc o ho2
          · cases hc : self.call gid rest with
            | none => rw [hc] at h; cases h
            | some r0 => exact ih r0 hc o ho2

/-- A collection holding any candidate with an unparsable identifier
makes the whole call fail. -/
theorem NotInUseDatasets.call_none_of_bad {α : Type} (self : NotInUseDatasets)
    (gid : α → String) (objs : List α) (obj : α)
    (hmem : obj ∈ objs) (hbad : pyUUID (gid obj) = none) :
    self.call gid objs = none := by
  induction objs with
  | nil => cases hmem
  | cons x rest ih =>
    rcases List.mem_cons.mp hmem with rfl | hmem2
    · simp only [NotInUseDatasets.call, hbad]
    · have hrest := ih hmem2
      simp only [NotInUseDatasets.call, hrest]
      cases hp : pyUUID (gid x) with
      | none => rfl
      | some did =>
        simp only []
        split
        · rfl
        · split
          · split
            · rfl
            · rfl
          · rfl

/-! ### Claim theorems -/

/-- C1: for a candidate collection whose extracted identifiers all parse,
the call operation returns exactly the input filtered by the exclusion
predicate: a candidate is excluded iff its extracted identifier appears
in the locally-used set or its identifier has a lease owned by this
filter's node; a candidate leased by a different node (and not locally
used) is not excluded; every non-excluded candidate appears in the
result in input order. -/
theorem notInUse_call_filters_exactly_in_use {α : Type} (self : NotInUseDatasets)
    (gid : α → String) (objs : List α)
    (h : ∀ o ∈ objs, (pyUUID (gid o)).isSome) :
    self.call gid objs = some (objs.filter (fun o => ! self.specExcludes gid o)) :=
  self.call_eq_filter gid objs h

/-- Witness for C1 at the spec's concrete scenario. -/
theorem notInUse_call_filters_exactly_in_use_witness :
    (∀ o ∈ scenarioCandidates, (pyUUID (defaultGetDatasetId o)).isSome) ∧
    scenarioFilter.call defaultGetDatasetId scenarioCandidates =
      some (scenarioCandidates.filter
        (fun o => ! scenarioFilter.specExcludes defaultGetDatasetId o)) :=
  ⟨by decide,
   notInUse_call_filters_exactly_in_use scenarioFilter defaultGetDatasetId
     scenarioCandidates (by decide)⟩

/-- C2: in the concrete scenario (node A has a local user referencing
dataset d1; the lease table maps d2 to node A and d3 to node B),
filtering the candidates d1, d2, d3, d4 yields exactly d3, d4. -/
theorem filter_concrete_scenario :
    scenarioFilter.call defaultGetDatasetId scenarioCandidates =
      some [⟨"33333333-3333-3333-3333-333333333333"⟩,
            ⟨"44444444-4444-4444-4444-444444444444"⟩] := by
  decide

/-- C3: for every candidate whose extracted identifier string is not a
valid UUID, calling the filter on a collection containing that candidate
raises (the whole call fails) rather than silently dropping the
candidate or passing it through. -/
theorem parse_failure_raises {α : Type} (self : NotInUseDatasets)
    (gid : α → String) (objs : List α) (obj : α)
    (hmem : obj ∈ objs) (hbad : pyUUID (gid obj) = none) :
    self.call gid objs = none :=
  self.call_none_of_bad gid objs obj hmem hbad

/-- Witness for C3: one unparsable identifier makes a concrete call
fail. -/
theorem parse_failure_raises_witness :
    (⟨"not-a-uuid"⟩ : Dataset) ∈
      ([⟨"11111111-1111-1111-1111-111111111111"⟩, ⟨"not-a-uuid"⟩] : List Dataset) ∧
    pyUUID (defaultGetDatasetId ⟨"not-a-uuid"⟩) = none ∧
    (NotInUseDatasets.init 10 [] []).call defaultGetDatasetId
      [⟨"11111111-1111-1111-1111-111111111111"⟩, ⟨"not-a-uuid"⟩] = none :=
  ⟨by decide, by decide,
   parse_failure_raises (NotInUseDatasets.init 10 [] []) defaultGetDatasetId
     [⟨"11111111-1111-1111-1111-111111111111"⟩, ⟨"not-a-uuid"⟩]
     ⟨"not-a-uuid"⟩ (by decide) (by decide)⟩

/-- C4: for every constructed NodeLocalState, shared_state_changes
returns a one-element sequence whose single element is the stored
node-state snapshot. -/
theorem shared_state_changes_singleton (s : NodeLocalState) :
    s.shared_state_changes = [s.node_state] ∧ s.shared_state_changes.length = 1 :=
  ⟨rfl, rfl⟩

/-- C5 counterexample: two candidates whose identifier strings parse to
the same canonical UUID, on which the filter decides differently: the
lowercase spelling is excluded (its raw string is in the locally-used
set) while the uppercase spelling passes through. -/
theorem canonical_uuid_decision_counterexample :
    pyUUID lowerCaseId = pyUUID upperCaseId ∧
    (pyUUID lowerCaseId).isSome ∧
    caseFilter.call defaultGetDatasetId [⟨lowerCaseId⟩] = some [] ∧
    caseFilter.call defaultGetDatasetId [⟨upperCaseId⟩] = some [⟨upperCaseId⟩] :=
  ⟨by decide, by decide, by decide, by decide⟩

/-- C5 amended: the lease-ownership check is determined by the canonical
UUID, but the locally-used-set check compares the raw identifier string:
two candidates whose identifier strings parse to the same canonical UUID
receive the same exclusion decision whenever their raw strings agree on
membership in the locally-used set. -/
theorem exclusion_decision_amended {α : Type} (self : NotInUseDatasets)
    (gid : α → String) (o1 o2 : α) (u : Nat)
    (h1 : pyUUID (gid o1) = some u) (h2 : pyUUID (gid o2) = some u)
    (hmem : gid o1 ∈ self.in_use_datasets ↔ gid o2 ∈ self.in_use_datasets) :
    self.specExcludes gid o1 = self.specExcludes gid o2 := by
  unfold NotInUseDatasets.specExcludes
  rw [h1, h2, decide_eq_decide.mpr hmem]

/-- Witness for C5 amended: the two spellings of the same leased UUID,
neither in the locally-used set, get the same decision. -/
theorem exclusion_decision_amended_witness :
    pyUUID (defaultGetDatasetId ⟨lowerCaseId⟩) = some 0xaaaaaaaaaaaaaaaaaaaaaaaaaaaaaaaa ∧
    pyUUID (defaultGetDatasetId ⟨upperCaseId⟩) = some 0xaaaaaaaaaaaaaaaaaaaaaaaaaaaaaaaa ∧
    (defaultGetDatasetId ⟨lowerCaseId⟩ ∈ leaseFilter.in_use_datasets ↔
      defaultGetDatasetId ⟨upperCaseId⟩ ∈ leaseFilter.in_use_datasets) ∧
    leaseFilter.specExcludes defaultGetDatasetId (⟨lowerCaseId⟩ : Dataset) =
      leaseFilter.specExcludes defaultGetDatasetId (⟨upperCaseId⟩ : Dataset) :=
  ⟨by decide, by decide, by decide,
   exclusion_decision_amended leaseFilter defaultGetDatasetId ⟨lowerCaseId⟩ ⟨upperCaseId⟩
     0xaaaaaaaaaaaaaaaaaaaaaaaaaaaaaaaa (by decide) (by decide) (by decide)⟩

/-- C6: the filter is idempotent: applying the call operation to the
result of a successful call returns that result unchanged. -/
theorem filter_idempotent {α : Type} (self : NotInUseDatasets)
    (gid : α → String) (objs r : List α)
    (h : self.call gid objs = some r) :
    self.call gid r = some r := by
  have hall := self.call_some_isSome gid objs r h
  have heq := self.call_eq_filter gid objs hall
  rw [h] at heq
  have hr : r = objs.filter (fun o => ! self.specExcludes gid o) := Option.some.inj heq
  have hrall : ∀ o ∈ r, (pyUUID (gid o)).isSome := by
    intro o ho
    rw [hr] at ho
    exact hall o (List.mem_of_mem_filter ho)
  have hkeep : ∀ o ∈ r, (! self.specExcludes gid o) = true := by
    intro o ho
    rw [hr] at ho
    have hpx := List.of_mem_filter ho
    exact hpx
  rw [self.call_eq_filter gid r hrall, List.filter_eq_self.mpr hkeep]

/-- Witness for C6: re-filtering the concrete scenario's result changes
nothing. -/
theorem filter_idempotent_witness :
    scenarioFilter.call defaultGetDatasetId scenarioCandidates =
      some [⟨"33333333-3333-3333-3333-333333333333"⟩,
            ⟨"44444444-4444-4444-4444-444444444444"⟩] ∧
    scenarioFilter.call defaultGetDatasetId
      [⟨"33333333-3333-3333-3333-333333333333"⟩,
       ⟨"44444444-4444-4444-4444-444444444444"⟩] =
      some [⟨"33333333-3333-3333-3333-333333333333"⟩,
            ⟨"44444444-4444-4444-4444-444444444444"⟩] :=
  ⟨by decide,
   filter_idempotent scenarioFilter defaultGetDatasetId scenarioCandidates
     [⟨"33333333-3333-3333-3333-333333333333"⟩,
      ⟨"44444444-4444-4444-4444-444444444444"⟩] (by decide)⟩

/-- C7: a NodeLocalState is immutable: its one operation leaves the
receiver unchanged, the stored node_state is the same value after the
call, and the operation is a pure projection of that value. -/
theorem nodeLocalState_immutable (s : NodeLocalState) :
    s.sharedStateChangesRun.2 = s ∧
    s.sharedStateChangesRun.2.node_state = s.node_state ∧
    s.sharedStateChangesRun.1 = s.shared_state_changes :=
  ⟨rfl, rfl, rfl⟩

/-- C8: the filter is stateless after construction: a call leaves the
filter's state (node id, precomputed in-use set, lease table) and the
input collection unchanged, and an immediately repeated call on the
resulting state and input returns the same result. -/
theorem notInUse_stateless {α : Type} (self : NotInUseDatasets)
    (gid : α → String) (objects : List α) :
    (self.callRun gid objects).2.1 = self ∧
    (self.callRun gid objects).2.2 = objects ∧
    ((self.callRun gid objects).2.1.callRun gid (self.callRun gid objects).2.2).1 =
      (self.callRun gid objects).1 :=
  ⟨rfl, rfl, rfl⟩

/-- C9: after a NoOp result the loop sleeps: the delay before the next
discover_state call is at most the poll interval, no push arrives
strictly before the wake (nothing else can interrupt the sleep), and the
wake happens either because the full poll interval elapsed or because a
push arrived at the wake tick. -/
theorem noop_idle_law (p : Nat) (pushes : List Bool) :
    postCycleDelay p StateChange.noOp pushes ≤ p ∧
    (∀ t, t < postCycleDelay p StateChange.noOp pushes → pushes.getD t false = false) ∧
    (postCycleDelay p StateChange.noOp pushes = p ∨
      pushes.getD (postCycleDelay p StateChange.noOp pushes) false = true) := by
  simp only [postCycleDelay]
  induction p generalizing pushes with
  | zero =>
    exact ⟨Nat.le_refl 0, fun t ht => absurd ht (by simp [noOpSleep]), Or.inl rfl⟩
  | succ r ih =>
    cases pushes with
    | nil =>
      refine ⟨Nat.le_refl _, fun t ht => ?_, Or.inl rfl⟩
      simp [noOpSleep, List.getD]
    | cons q ps =>
      by_cases hq : q = true
      · refine ⟨by simp [noOpSleep, hq], fun t ht => absurd ht (by simp [noOpSleep, hq]), ?_⟩
        right
        simp [noOpSleep, hq]
      · have hq2 : q = false := by simpa using hq
        obtain ⟨ih1, ih2, ih3⟩ := ih ps
        subst hq2
        have hstep : noOpSleep (r + 1) (false :: ps) = noOpSleep r ps + 1 := by
          simp [noOpSleep]
        rw [hstep]
        refine ⟨Nat.succ_le_succ ih1, ?_, ?_⟩
        · intro t ht
          cases t with
          | zero => simp
          | succ t2 =>
            simp only [List.getD_cons_succ]
            exact ih2 t2 (Nat.lt_of_succ_lt_succ ht)
        · rcases ih3 with h3 | h3
          · exact Or.inl (by rw [h3])
          · exact Or.inr (by simpa using h3)

/-- Witness for C9 with poll interval 3 and a push during the second
tick: the loop wakes at the push, after one slept tick, and no push
preceded the wake. -/
theorem noop_idle_law_witness :
    postCycleDelay 3 StateChange.noOp [false, true, false] ≤ 3 ∧
    ([false, true, false].getD 0 false = false) ∧
    ([false, true, false].getD (postCycleDelay 3 StateChange.noOp [false, true, false])
      false = true) :=
  ⟨(noop_idle_law 3 [false, true, false]).1,
   (noop_idle_law 3 [false, true, false]).2.1 0 (by decide),
   by
     rcases (noop_idle_law 3 [false, true, false]).2.2 with h | h
     · exact absurd h (by decide)
     · exact h⟩

/-- C10: a call is atomic on identifier parse failure: whatever passing
candidates precede or follow it, one candidate with an unparsable
identifier makes the whole call fail with no partial result. -/
theorem parse_failure_atomic {α : Type} (self : NotInUseDatasets)
    (gid : α → String) (pre post : List α) (obj : α)
    (hbad : pyUUID (gid obj) = none) :
    self.call gid (pre ++ obj :: post) = none :=
  self.call_none_of_bad gid (pre ++ obj :: post) obj
    (List.mem_append_right pre (List.mem_cons_self obj post)) hbad

/-- Witness for C10: the unparsable identifier is itself in the
locally-used set, and the preceding candidate passes on its own, yet the
whole call fails. -/
theorem parse_failure_atomic_witness :
    pyUUID (defaultGetDatasetId ⟨"bad-id"⟩) = none ∧
    defaultGetDatasetId (⟨"bad-id"⟩ : Dataset) ∈ inUseBadFilter.in_use_datasets ∧
    inUseBadFilter.call defaultGetDatasetId
      [⟨"11111111-1111-1111-1111-111111111111"⟩] =
      some [⟨"11111111-1111-1111-1111-111111111111"⟩] ∧
    inUseBadFilter.call defaultGetDatasetId
      ([⟨"11111111-1111-1111-1111-111111111111"⟩] ++ (⟨"bad-id"⟩ : Dataset) :: []) =
      none :=
  ⟨by decide, by decide, by decide,
   parse_failure_atomic inUseBadFilter defaultGetDatasetId
     [⟨"11111111-1111-1111-1111-111111111111"⟩] [] ⟨"bad-id"⟩ (by decide)⟩
